import Mathlib

/-!
Shallow embedding of the dify-api-client repository
(src/dify_client.py and src/question_batch.py).

The Python values that flow through the client are decoded JSON documents;
they are embedded as the inductive type `JVal`.  The dynamic Python
operations the code applies to them (`key in v`, `v[key]`, `str(v)`) are
embedded as functions that either return a value or raise, exactly as
CPython does; a raised exception is an `Except.error` carrying the
exception's message text (CPython 3.11 wording).

The HTTP transport, the filesystem and the wall clock are external to the
program, so they enter the model as explicit inputs: an `HttpOutcome` per
request, a `WriteOutcome` per file-write attempt, and a `Nat` clock tick
per call (`datetime.now().isoformat()` is order-preserving and injective
on times, so a timestamp string is represented by its tick value).
-/

/-- A decoded JSON document (the result of `json.loads` / `response.json()`).
Objects are association lists in document order; `json` decoding keeps the
last duplicate key, so objects coming from the decoder have distinct keys. -/
inductive JVal where
  | null : JVal
  | jbool : Bool → JVal
  | jint : Int → JVal
  | jstr : String → JVal
  | jarr : List JVal → JVal
  | jobj : List (String × JVal) → JVal

/-- A raised Python exception, with the CPython message text. -/
inductive PyExc where
  | typeError : String → PyExc
  | attributeError : String → PyExc
  | keyError : String → PyExc

/-- Python `type(v).__name__` for a decoded JSON value. -/
def pyTypeName : JVal → String
  | .null => "NoneType"
  | .jbool _ => "bool"
  | .jint _ => "int"
  | .jstr _ => "str"
  | .jarr _ => "list"
  | .jobj _ => "dict"

/-- Does `pat` occur as a prefix of `l`? (helper for substring search) -/
def subAt : List Char → List Char → Bool
  | [], _ => true
  | _ :: _, [] => false
  | p :: ps, c :: cs => p == c && subAt ps cs

/-- Does `pat` occur anywhere inside `l`? (helper for substring search) -/
def subSearch (pat : List Char) : List Char → Bool
  | [] => subAt pat []
  | c :: cs => subAt pat (c :: cs) || subSearch pat cs

/-- Python substring test `pat in s` on strings. -/
def strContains (s pat : String) : Bool := subSearch pat.data s.data

/-- Python equality `key == v` between a `str` and a decoded JSON value
(`==` between a string and a value of another type is `False`). -/
def strEqVal (key : String) : JVal → Bool
  | .jstr s => key == s
  | _ => false

/-- Python membership `key in v` for a string `key`: key lookup on a dict,
substring test on a string, element equality on a list, and a `TypeError`
on the non-iterable scalars. -/
def pyContains (v : JVal) (key : String) : Except PyExc Bool :=
  match v with
  | .jobj kvs => .ok (kvs.lookup key).isSome
  | .jstr s => .ok (strContains s key)
  | .jarr xs => .ok (xs.any (strEqVal key))
  | other => .error (.typeError ("argument of type \x27" ++ pyTypeName other ++ "\x27 is not iterable"))

/-- Python subscript `v[key]` for a string `key`: dict lookup (a `KeyError`
when the key is absent), and a `TypeError` on every other type. -/
def pyGetItem (v : JVal) (key : String) : Except PyExc JVal :=
  match v with
  | .jobj kvs =>
    match kvs.lookup key with
    | some x => .ok x
    | none => .error (.keyError key)
  | .jstr _ => .error (.typeError "string indices must be integers, not \x27str\x27")
  | .jarr _ => .error (.typeError "list indices must be integers or slices, not str")
  | other => .error (.typeError ("\x27" ++ pyTypeName other ++ "\x27 object is not subscriptable"))

mutual
/-- Python `repr` of a decoded JSON value.  String repr is modelled with
plain single quotes; CPython additionally escapes quotes, backslashes and
control characters, which no string in this development contains. -/
def pyRepr : JVal → String
  | .null => "None"
  | .jbool true => "True"
  | .jbool false => "False"
  | .jint n => toString n
  | .jstr s => "\x27" ++ s ++ "\x27"
  | .jarr xs => "[" ++ String.intercalate ", " (pyReprList xs) ++ "]"
  | .jobj kvs => "\x7b" ++ String.intercalate ", " (pyReprPairs kvs) ++ "\x7d"

/-- `repr` of the elements of a list. -/
def pyReprList : List JVal → List String
  | [] => []
  | x :: xs => pyRepr x :: pyReprList xs

/-- `repr` of the key/value pairs of a dict. -/
def pyReprPairs : List (String × JVal) → List String
  | [] => []
  | (k, v) :: kvs => ("\x27" ++ k ++ "\x27: " ++ pyRepr v) :: pyReprPairs kvs
end

/-- Python `str` of a decoded JSON value (what an f-string interpolates and
what `csv.writer` writes for a non-string cell): the identity on strings,
`repr` on everything else. -/
def pyStr : JVal → String
  | .jstr s => s
  | v => pyRepr v

/-- Python `str(e)` for a raised exception: the message for `TypeError` and
`AttributeError`, the `repr` of the missing key for `KeyError`. -/
def excMsg : PyExc → String
  | .typeError m => m
  | .attributeError m => m
  | .keyError k => "\x27" ++ k ++ "\x27"

/-- The outcome of `self.session.post(...)`, `raise_for_status()` and
`response.json()` together, supplied by the environment.  A network
failure, a non-2xx status (`HTTPError`) and an undecodable body
(`requests.exceptions.JSONDecodeError`, a `RequestException` subclass
since requests 2.27) all raise `requests.exceptions.RequestException`,
embedded as `requestException` with the exception's message. -/
inductive HttpOutcome where
  | success : JVal → HttpOutcome
  | requestException : String → HttpOutcome

/-- The outcome the filesystem gives one `open(path, "w")` attempt on the
primary log path (failure is modelled at open time, before the file is
touched).  `permissionError` is `PermissionError`; `otherError` is any
other `Exception`. -/
inductive WriteOutcome where
  | ok : WriteOutcome
  | permissionError : String → WriteOutcome
  | otherError : String → WriteOutcome

/-- The outcome of the desktop-fallback write attempt (the code catches
every `Exception` there, so only success and failure are distinguished). -/
inductive DWrite where
  | ok : DWrite
  | fail : String → DWrite

/-- The filesystem outcomes for the two write attempts one
`_log_interaction` call may make. -/
structure LogEnv where
  primaryWrite : WriteOutcome
  desktopWrite : DWrite

/-- The external environment of one `send_message` call: the HTTP outcome,
the filesystem outcomes for logging, and the clock tick `datetime.now()`
reads during the call. -/
structure CallEnv where
  http : HttpOutcome
  logw : LogEnv
  now : Nat

/-- The console lines the client prints, one constructor per `print` call
site in `dify_client.py`, carrying the interpolated exception message
(the fixed path texts are not modelled). -/
inductive Msg where
  | apiRequestFailed : String → Msg
  | permWarn : String → Msg
  | pathInfo : Msg
  | desktopSaved : Msg
  | desktopFailed : String → Msg
  | otherWarn : String → Msg

/-- The state of one log file path: absent, present but not decodable as
JSON, or present with a decoded JSON content. -/
inductive LogFileState where
  | absent : LogFileState
  | invalid : LogFileState
  | content : JVal → LogFileState

/-- The two file paths `_log_interaction` can write:
`<script_dir>/dify_chat_log.json` and the desktop fallback. -/
structure FS where
  primary : LogFileState
  desktop : LogFileState

/-- The filesystem before any log has been written. -/
def initFS : FS := ⟨.absent, .absent⟩

/-- The log entry `_log_interaction` builds (timestamp, question, raw
response), with the ISO timestamp represented by its clock tick. -/
def mkEntry (now : Nat) (question : String) (response : JVal) : JVal :=
  .jobj [("timestamp", .jint (Int.ofNat now)), ("question", .jstr question), ("response", response)]

/-- Lines 93-99 of dify_client.py: the `logs` value after the read phase —
`[]` when the file does not exist or fails to decode
(`json.JSONDecodeError` is caught), the decoded content otherwise. -/
def readLogs : LogFileState → JVal
  | .absent => .jarr []
  | .invalid => .jarr []
  | .content v => v

/-- `DifyClient._log_interaction` (dify_client.py lines 78-120): read the
existing log, append the new entry, write the file back; on
`PermissionError` retry once on the desktop path; every other failure is
printed and swallowed.  `logs.append(...)` on a decoded non-list raises
`AttributeError` (uncaught).  Returns the call's outcome, the filesystem
after the call, and the printed lines. -/
def log_interaction (env : LogEnv) (now : Nat) (question : String) (response : JVal)
    (fs : FS) : Except PyExc Unit × FS × List Msg :=
  let entry := mkEntry now question response
  match readLogs fs.primary with
  | .jarr xs =>
    let logs2 := JVal.jarr (xs ++ [entry])
    match env.primaryWrite with
    | .ok => (.ok (), { fs with primary := .content logs2 }, [])
    | .permissionError m =>
      match env.desktopWrite with
      | .ok => (.ok (), { fs with desktop := .content logs2 }, [.permWarn m, .pathInfo, .desktopSaved])
      | .fail m2 => (.ok (), fs, [.permWarn m, .pathInfo, .desktopFailed m2])
    | .otherError m => (.ok (), fs, [.otherWarn m])
  | other =>
    (.error (.attributeError ("\x27" ++ pyTypeName other ++ "\x27 object has no attribute \x27append\x27")), fs, [])

/-- `DifyClient.send_message` (dify_client.py lines 40-76): on HTTP success
the decoded body is logged and returned; on `RequestException` the error
is printed and a dict with an `error` field is returned (nothing is
logged).  An exception raised by `_log_interaction` is not a
`RequestException` and propagates. -/
def send_message (env : CallEnv) (message : String) (fs : FS) :
    Except PyExc JVal × FS × List Msg :=
  match env.http with
  | .success body =>
    match log_interaction env.logw env.now message body fs with
    | (.ok _, fs2, msgs) => (.ok body, fs2, msgs)
    | (.error e, fs2, msgs) => (.error e, fs2, msgs)
  | .requestException m =>
    let em := "API request failed: " ++ m
    (.ok (.jobj [("error", .jstr em)]), fs, [.apiRequestFailed em])

/-- Lines 134-143 of `DifyClient.get_answer`: the answer-extraction
conditional chain applied to the value `send_message` returned, with
Python `in` / `[]` semantics (each test can itself raise). -/
def extractAnswer (result : JVal) : Except PyExc JVal :=
  match pyContains result "error" with
  | .error e => .error e
  | .ok true =>
    match pyGetItem result "error" with
    | .error e => .error e
    | .ok v => .ok (.jstr ("Error: " ++ pyStr v))
  | .ok false =>
    match pyContains result "answer" with
    | .error e => .error e
    | .ok true => pyGetItem result "answer"
    | .ok false =>
      match pyContains result "data" with
      | .error e => .error e
      | .ok true =>
        match pyGetItem result "data" with
        | .error e => .error e
        | .ok d =>
          match pyContains d "answer" with
          | .error e => .error e
          | .ok true => pyGetItem d "answer"
          | .ok false => .ok (.jstr "No answer found in response")
      | .ok false => .ok (.jstr "No answer found in response")

/-- `DifyClient.get_answer` (dify_client.py lines 122-143): `send_message`
followed by answer extraction; exceptions from either step propagate. -/
def get_answer (env : CallEnv) (question : String) (fs : FS) :
    Except PyExc JVal × FS × List Msg :=
  match send_message env question fs with
  | (.ok result, fs2, msgs) =>
    match extractAnswer result with
    | .ok v => (.ok v, fs2, msgs)
    | .error e => (.error e, fs2, msgs)
  | (.error e, fs2, msgs) => (.error e, fs2, msgs)

/-- The entries stored at the primary log path (empty when the file is
absent or does not hold a JSON array). -/
def logsOf (fs : FS) : List JVal :=
  match fs.primary with
  | .content (.jarr xs) => xs
  | _ => []

/-- The primary log path is in a state the logger reads as a list: absent,
or holding a JSON array. -/
def listLog (fs : FS) : Prop :=
  fs.primary = .absent ∨ ∃ xs, fs.primary = .content (.jarr xs)

/-- A sequence of `send_message` calls, each with its own environment,
threading the filesystem; stops if a call raises. -/
def sendMany : List (CallEnv × String) → FS → Except PyExc FS
  | [], fs => .ok fs
  | (env, q) :: rest, fs =>
    match send_message env q fs with
    | (.ok _, fs2, _) => sendMany rest fs2
    | (.error e, _, _) => .error e

/-- Did the HTTP layer deliver a decoded body? -/
def isSuccess : HttpOutcome → Bool
  | .success _ => true
  | .requestException _ => false

/-- The decoded body of a successful outcome (`null` placeholder otherwise;
only ever used under an `isSuccess` filter). -/
def bodyOf : HttpOutcome → JVal
  | .success b => b
  | .requestException _ => .null

/-- The log entry a successful call writes. -/
def entryOfCall (c : CallEnv × String) : JVal :=
  mkEntry c.1.now c.2 (bodyOf c.1.http)

/-- The log entries a sequence of calls is expected to leave behind: one
per successful call, in call order, none for failed calls. -/
def entriesOf (calls : List (CallEnv × String)) : List JVal :=
  (calls.filter (fun c => isSuccess c.1.http)).map entryOfCall

/-- The clock tick stored in a log entry. -/
def tsOfEntry : JVal → Nat
  | .jobj (("timestamp", .jint t) :: _) => t.toNat
  | _ => 0

/-!  question_batch.py  -/

/-- Python `str.strip()`: drop leading and trailing whitespace
(`Char.isWhitespace` matches Python on the ASCII whitespace characters
that occur in text lines). -/
def pyStrip (s : String) : String :=
  String.mk (((s.data.dropWhile Char.isWhitespace).reverse.dropWhile Char.isWhitespace).reverse)

/-- The accumulation loop inside `load_questions_from_file`
(question_batch.py lines 22-28): strip each line, keep the non-blank
ones, in file order. -/
def loadLoop : List String → List String → List String
  | [], acc => acc
  | l :: ls, acc =>
    let q := pyStrip l
    if q == "" then loadLoop ls acc else loadLoop ls (acc ++ [q])

/-- `load_questions_from_file` (question_batch.py lines 18-31).  The file
read is an external input: `none` when the file cannot be opened (the
caught exception path, which prints a diagnostic and leaves the list
empty), `some lines` when it is readable with the given decoded lines. -/
def load_questions_from_file : Option (List String) → List String
  | none => []
  | some lines => loadLoop lines []

/-- One collected batch row (the dict appended to `answers_only`,
question_batch.py lines 157-174): sequence number, question, the answer
value `get_answer` returned (an error string in the exception branch) and
the clock tick of `datetime.now().isoformat()`. -/
structure Row where
  question_number : Nat
  question : String
  answer : JVal
  timestamp : Nat

/-- The f-string `f"質問{i}でエラー: {e}"` built in the per-question
exception handler (question_batch.py line 165). -/
def batchErrMsg (i : Nat) (e : PyExc) : String :=
  "質問" ++ toString i ++ "でエラー: " ++ excMsg e

/-- The batch loop of `main` (question_batch.py lines 148-176): for each
question, in order, call `get_answer`; on success append a row with the
answer, on any exception append a row with the numbered error string;
either way continue with the next question.  The filesystem is threaded
through the calls (a raising call still keeps the log writes it made). -/
def batchLoop : List (CallEnv × String) → Nat → FS → List Row → List Row × FS
  | [], _, fs, acc => (acc, fs)
  | (env, q) :: rest, i, fs, acc =>
    match get_answer env q fs with
    | (.ok a, fs2, _) => batchLoop rest (i + 1) fs2 (acc ++ [⟨i, q, a, env.now⟩])
    | (.error e, fs2, _) => batchLoop rest (i + 1) fs2 (acc ++ [⟨i, q, .jstr (batchErrMsg i e), env.now⟩])

/-- One batch run over the loaded questions: `enumerate(questions, 1)`
starts the numbering at 1 with an empty row list. -/
def runBatch (calls : List (CallEnv × String)) (fs : FS) : List Row × FS :=
  batchLoop calls 1 fs []

/-- A wall-clock date and time, for `datetime.now().strftime`. -/
structure DateTime where
  year : Nat
  month : Nat
  day : Nat
  hour : Nat
  minute : Nat
  second : Nat

/-- Zero-pad a number to `w` digits, as `strftime` does. -/
def padZeros (w : Nat) (n : Nat) : String :=
  let s := toString n
  if s.length < w then String.mk (List.replicate (w - s.length) '0') ++ s else s

/-- `datetime.now().strftime("%Y%m%d%H%M%S")` (question_batch.py
line 44). -/
def strftime14 (t : DateTime) : String :=
  padZeros 4 t.year ++ padZeros 2 t.month ++ padZeros 2 t.day ++
    padZeros 2 t.hour ++ padZeros 2 t.minute ++ padZeros 2 t.second

/-- The four cells `writer.writerow` receives for one collected row
(question_batch.py lines 62-67); `csv.writer` stringifies non-string
cells with `str()`, and the row's ISO timestamp string is represented by
its tick value. -/
def renderRow (r : Row) : List String :=
  [toString r.question_number, toString r.timestamp, r.question, pyStr r.answer]

/-- The data-row loop `for item in answers: writer.writerow(...)`. -/
def writeRows : List Row → List (List String)
  | [] => []
  | r :: rs => renderRow r :: writeRows rs

/-- The records one CSV write emits: the header row, then the data rows. -/
def csvContent (answers : List Row) : List (List String) :=
  ["question_number", "timestamp", "question", "answer"] :: writeRows answers

/-- Which path received the CSV file. -/
inductive Dest where
  | primary : Dest
  | desktop : Dest

/-- The filesystem outcomes for the two write attempts `save_answers_only`
may make. -/
structure CsvEnv where
  primaryWrite : WriteOutcome
  desktopWrite : DWrite

/-- `save_answers_only` (question_batch.py lines 33-97): build the
timestamped file name, write header plus one row per collected answer; on
`PermissionError` retry the identical write on the desktop path; any
other failure (of either attempt) is printed and swallowed, persisting
nothing.  Returns the file name and, when a write succeeded, where the
records landed. -/
def save_answers_only (t : DateTime) (env : CsvEnv) (answers : List Row) :
    String × Option (Dest × List (List String)) :=
  let filename := strftime14 t ++ "_dify_answers_only.csv"
  match env.primaryWrite with
  | .ok => (filename, some (.primary, csvContent answers))
  | .permissionError _ =>
    match env.desktopWrite with
    | .ok => (filename, some (.desktop, csvContent answers))
    | .fail _ => (filename, none)
  | .otherError _ => (filename, none)

/-!  DifyClient.__init__ and the request URL  -/

/-- Python `s.rstrip("/")`: remove every trailing slash. -/
def rstripSlashes (s : String) : String :=
  String.mk ((s.data.reverse.dropWhile (fun c => c == '/')).reverse)

/-- Python truthiness of an `Optional[str]` (`None` and `""` are falsy). -/
def truthy : Option String → Bool
  | none => false
  | some s => !(s == "")

/-- `os.getenv(name, default)`: the variable's value when it is set (even
when set to the empty string), the default otherwise. -/
def getenvD (envVar : Option String) (dflt : String) : String :=
  match envVar with
  | some v => v
  | none => dflt

/-- `self.base_url = (base_url or os.getenv("DIFY_BASE_URL",
"http://localhost/v1")).rstrip("/")` (dify_client.py line 26). -/
def initBaseUrl (arg envVar : Option String) : String :=
  rstripSlashes (if truthy arg then arg.getD "" else getenvD envVar "http://localhost/v1")

/-- The request URL `f"{self.base_url}/chat-messages"` (dify_client.py
line 52). -/
def sendEndpoint (baseUrl : String) : String := baseUrl ++ "/chat-messages"

/-!  Definitions taken from the specification's wording (for the
refinement claims about `get_answer`).  -/

/-- The field of a JSON object, `none` on a non-object. -/
def getField : JVal → String → Option JVal
  | .jobj kvs, k => kvs.lookup k
  | _, _ => none

/-- The answer selection exactly as the specification words it: an
`error` field wins, then a top-level `answer` field, then a nested
`data.answer` field, then the fixed fallback string. -/
def claimedAnswer (r : JVal) : JVal :=
  match getField r "error" with
  | some v => .jstr ("Error: " ++ pyStr v)
  | none =>
    match getField r "answer" with
    | some v => v
    | none =>
      match getField r "data" with
      | some d =>
        match getField d "answer" with
        | some v => v
        | none => .jstr "No answer found in response"
      | none => .jstr "No answer found in response"

/-- The response shapes on which the extraction chain runs to completion:
a JSON object whose `data` field — consulted only when there is neither a
top-level `error` nor a top-level `answer` — is itself a JSON object if
present. -/
def safeShape : JVal → Bool
  | .jobj kvs =>
    (kvs.lookup "error").isSome || (kvs.lookup "answer").isSome ||
      (match kvs.lookup "data" with
       | none => true
       | some (.jobj _) => true
       | some _ => false)
  | _ => false

/-- The value `send_message` hands to the extraction chain: the decoded
body on success, the synthesized error dict on a request exception. -/
def sendResultOf : HttpOutcome → JVal
  | .success b => b
  | .requestException m => .jobj [("error", .jstr ("API request failed: " ++ m))]

/-- An HTTP outcome whose extraction runs to completion: any failure, or a
success whose body has a safe shape. -/
def safeBody : HttpOutcome → Bool
  | .success b => safeShape b
  | .requestException _ => true

/-- The classification the spec gives of a `get_answer` result relative to
the response `r`: an error-prefixed string, the fixed fallback string,
the top-level answer value, or the nested `data.answer` value. -/
def answerLike (r v : JVal) : Prop :=
  (∃ s, v = .jstr ("Error: " ++ s)) ∨ v = .jstr "No answer found in response" ∨
    getField r "answer" = some v ∨
    ∃ d, getField r "data" = some d ∧ getField d "answer" = some v

/-!  Concrete environments used to evaluate the model on the
specification's examples.  -/

/-- Both log-write attempts succeed. -/
def okLog : LogEnv := ⟨.ok, .ok⟩

/-- A call whose response body is `{"answer": "4"}`. -/
def envAnswer4 : CallEnv := ⟨.success (.jobj [("answer", .jstr "4")]), okLog, 0⟩

/-- A call whose response body is `{"data": {"answer": "hi"}}`. -/
def envDataHi : CallEnv := ⟨.success (.jobj [("data", .jobj [("answer", .jstr "hi")])]), okLog, 0⟩

/-- A call whose response body is `{}`. -/
def envEmptyObj : CallEnv := ⟨.success (.jobj []), okLog, 0⟩

/-- A call whose response body is `{"data": 5}`. -/
def envDataFive : CallEnv := ⟨.success (.jobj [("data", .jint 5)]), okLog, 0⟩

/-- A call whose response body is `{"answer": ""}`. -/
def envEmptyAnswer : CallEnv := ⟨.success (.jobj [("answer", .jstr "")]), okLog, 0⟩

/-- A call whose HTTP request fails. -/
def envBoom : CallEnv := ⟨.requestException "boom", okLog, 1⟩

/-- A two-call sequence: one success, then one failure, with a
nondecreasing clock. -/
def callsW : List (CallEnv × String) := [(envAnswer4, "a"), (envBoom, "b")]

/-!  Helper lemmas  -/

/-- A raised exception is never a returned value. -/
theorem error_ne_ok (e : PyExc) (v : JVal) :
    (Except.error e : Except PyExc JVal) ≠ Except.ok v :=
  fun h => Except.noConfusion h

/-- A pattern is found at the position where it starts. -/
theorem subAt_append (p l : List Char) : subAt p (p ++ l) = true := by
  induction p with
  | nil => rfl
  | cons c cs ih => simp [subAt, ih]

/-- Substring search succeeds when the pattern starts the text. -/
theorem subSearch_here (p b : List Char) : subSearch p (p ++ b) = true := by
  cases p with
  | nil =>
    cases b with
    | nil => rfl
    | cons c cs => simp [subSearch, subAt]
  | cons c cs =>
    show (subAt (c :: cs) ((c :: cs) ++ b) || subSearch (c :: cs) (cs ++ b)) = true
    rw [subAt_append]
    rfl

/-- Substring search is stable under prepending a character. -/
theorem subSearch_cons (p : List Char) (c : Char) (l : List Char)
    (h : subSearch p l = true) : subSearch p (c :: l) = true := by
  show (subAt p (c :: l) || subSearch p l) = true
  rw [h]
  exact Bool.or_true _

/-- Substring search is stable under prepending any text. -/
theorem subSearch_mono (a p l : List Char) (h : subSearch p l = true) :
    subSearch p (a ++ l) = true := by
  induction a with
  | nil => exact h
  | cons c cs ih => exact subSearch_cons _ _ _ ih

/-- A string occurs as a substring of any surrounding concatenation. -/
theorem strContains_mid (a m b : String) : strContains (a ++ m ++ b) m = true := by
  unfold strContains
  rw [String.append_assoc, String.data_append, String.data_append]
  exact subSearch_mono _ _ _ (subSearch_here _ _)

/-- The head surviving `dropWhile` fails the predicate. -/
theorem dropWhile_head_false {p : Char → Bool} {l : List Char} {c : Char}
    (h : (l.dropWhile p).head? = some c) : p c = false := by
  induction l with
  | nil => simp [List.dropWhile] at h
  | cons a t ih =>
    cases hp : p a with
    | true => simp [List.dropWhile, hp] at h; exact ih (by simpa using h)
    | false =>
      simp [List.dropWhile, hp] at h
      rw [← h]
      exact hp

/-- On a safely shaped response the extraction chain returns, without
raising, exactly the value the specification describes. -/
theorem extract_safe (r : JVal) (h : safeShape r = true) :
    extractAnswer r = .ok (claimedAnswer r) := by
  cases r with
  | null => simp [safeShape] at h
  | jbool b => simp [safeShape] at h
  | jint n => simp [safeShape] at h
  | jstr s => simp [safeShape] at h
  | jarr xs => simp [safeShape] at h
  | jobj kvs =>
    cases he : kvs.lookup "error" with
    | some v =>
      simp [extractAnswer, pyContains, pyGetItem, claimedAnswer, getField, he]
    | none =>
      cases ha : kvs.lookup "answer" with
      | some v =>
        simp [extractAnswer, pyContains, pyGetItem, claimedAnswer, getField, he, ha]
      | none =>
        cases hd : kvs.lookup "data" with
        | none =>
          simp [extractAnswer, pyContains, pyGetItem, claimedAnswer, getField, he, ha, hd]
        | some d =>
          cases d with
          | jobj dkvs =>
            cases hda : dkvs.lookup "answer" with
            | some v =>
              simp [extractAnswer, pyContains, pyGetItem, claimedAnswer, getField, he, ha, hd, hda]
            | none =>
              simp [extractAnswer, pyContains, pyGetItem, claimedAnswer, getField, he, ha, hd, hda]
          | null => simp [safeShape, he, ha, hd] at h
          | jbool b => simp [safeShape, he, ha, hd] at h
          | jint n => simp [safeShape, he, ha, hd] at h
          | jstr s => simp [safeShape, he, ha, hd] at h
          | jarr xs => simp [safeShape, he, ha, hd] at h

/-- The value the specification's selection rule picks is always one of
the four shapes the specification enumerates. -/
theorem claimedAnswer_like (r : JVal) : answerLike r (claimedAnswer r) := by
  unfold answerLike
  cases he : getField r "error" with
  | some v => exact Or.inl ⟨pyStr v, by simp [claimedAnswer, he]⟩
  | none =>
    cases ha : getField r "answer" with
    | some v => exact Or.inr (Or.inr (Or.inl (by simp [claimedAnswer, he, ha])))
    | none =>
      cases hd : getField r "data" with
      | none => exact Or.inr (Or.inl (by simp [claimedAnswer, he, ha, hd]))
      | some d =>
        cases hda : getField d "answer" with
        | some v =>
          exact Or.inr (Or.inr (Or.inr ⟨d, rfl, by simp [claimedAnswer, he, ha, hd, hda]⟩))
        | none => exact Or.inr (Or.inl (by simp [claimedAnswer, he, ha, hd, hda]))

/-- When the primary write succeeds and the primary log reads as a list,
`_log_interaction` appends exactly its entry to the primary file and
prints nothing. -/
theorem log_write_ok (env : LogEnv) (hW : env.primaryWrite = .ok) (now : Nat)
    (q : String) (resp : JVal) (fs : FS) (hG : listLog fs) :
    log_interaction env now q resp fs =
      (.ok (), ⟨.content (.jarr (logsOf fs ++ [mkEntry now q resp])), fs.desktop⟩, []) := by
  obtain h0 | ⟨xs, h0⟩ := hG <;>
    simp [log_interaction, readLogs, logsOf, h0, hW]

/-- Whatever the write outcomes, `_log_interaction` returns normally as
long as the primary log reads as a list. -/
theorem log_noraise (env : LogEnv) (now : Nat) (q : String) (resp : JVal)
    (fs : FS) (hG : listLog fs) :
    ∃ fs2 msgs, log_interaction env now q resp fs = (Except.ok (), fs2, msgs) := by
  obtain ⟨ys, hys⟩ : ∃ ys, readLogs fs.primary = .jarr ys := by
    obtain h0 | ⟨xs, h0⟩ := hG
    · exact ⟨[], by simp [readLogs, h0]⟩
    · exact ⟨xs, by simp [readLogs, h0]⟩
  obtain ⟨pw, dw⟩ := env
  unfold log_interaction
  rw [hys]
  cases pw with
  | ok => exact ⟨_, _, rfl⟩
  | permissionError m =>
    cases dw with
    | ok => exact ⟨_, _, rfl⟩
    | fail m2 => exact ⟨_, _, rfl⟩
  | otherError m => exact ⟨_, _, rfl⟩

/-- With a list-shaped log and a safely shaped outcome, `get_answer`
returns (without raising) exactly the value the specification's
selection rule picks from the value `send_message` produced. -/
theorem get_answer_ok (env : CallEnv) (q : String) (fs : FS) (hG : listLog fs)
    (hS : safeBody env.http = true) :
    ∃ fs2 msgs,
      get_answer env q fs = (.ok (claimedAnswer (sendResultOf env.http)), fs2, msgs) := by
  obtain ⟨http, logw, now⟩ := env
  cases http with
  | success body =>
    obtain ⟨fs2, msgs, hl⟩ := log_noraise logw now q body fs hG
    refine ⟨fs2, msgs, ?_⟩
    simp only [get_answer, send_message, hl]
    rw [extract_safe body (by simpa [safeBody] using hS)]
    rfl
  | requestException m =>
    refine ⟨fs, [.apiRequestFailed ("API request failed: " ++ m)], ?_⟩
    simp only [get_answer, send_message]
    rw [extract_safe _ (by simp [safeShape])]
    rfl

/-- Running a sequence of `send_message` calls with all primary log writes
succeeding, from a list-shaped log: no call raises, and the final log is
the initial log followed by one entry per successful call, in call
order. -/
theorem sendMany_logs (calls : List (CallEnv × String)) :
    ∀ fs : FS, (∀ c ∈ calls, c.1.logw.primaryWrite = WriteOutcome.ok) → listLog fs →
      ∃ fs2, sendMany calls fs = .ok fs2 ∧
        logsOf fs2 = logsOf fs ++ entriesOf calls ∧ listLog fs2 := by
  induction calls with
  | nil =>
    intro fs _ hG
    exact ⟨fs, rfl, by simp [entriesOf], hG⟩
  | cons c rest ih =>
    intro fs hW hG
    obtain ⟨⟨http, logw, now⟩, q⟩ := c
    have hw : logw.primaryWrite = .ok := hW _ (List.mem_cons_self _ _)
    have hWr : ∀ c ∈ rest, c.1.logw.primaryWrite = WriteOutcome.ok :=
      fun c hc => hW c (List.mem_cons_of_mem _ hc)
    cases http with
    | success body =>
      have hl := log_write_ok logw hw now q body fs hG
      obtain ⟨fs3, h1, h2, h3⟩ :=
        ih ⟨.content (.jarr (logsOf fs ++ [mkEntry now q body])), fs.desktop⟩ hWr
          (Or.inr ⟨_, rfl⟩)
      refine ⟨fs3, ?_, ?_, h3⟩
      · simp only [sendMany, send_message, hl]
        exact h1
      · rw [h2]
        simp [logsOf, entriesOf, entryOfCall, isSuccess, bodyOf, List.filter]
    | requestException m =>
      obtain ⟨fs3, h1, h2, h3⟩ := ih fs hWr hG
      refine ⟨fs3, ?_, ?_, h3⟩
      · simp only [sendMany, send_message]
        exact h1
      · rw [h2]
        simp [entriesOf, isSuccess, List.filter]

/-- The tick stored by a successful call's entry is the call's clock
tick. -/
theorem tsOf_entryOfCall (c : CallEnv × String) :
    tsOfEntry (entryOfCall c) = c.1.now := rfl

/-- The load loop is the strip-then-drop-blanks pipeline on the file's
lines. -/
theorem loadLoop_eq (ls : List String) :
    ∀ acc, loadLoop ls acc = acc ++ (ls.map pyStrip).filter (fun q => !(q == "")) := by
  induction ls with
  | nil => intro acc; simp [loadLoop]
  | cons l t ih =>
    intro acc
    by_cases h : pyStrip l == ""
    · simp [loadLoop, h, ih]
    · rw [show loadLoop (l :: t) acc = loadLoop t (acc ++ [pyStrip l]) from by
        simp [loadLoop, h]]
      rw [ih]
      simp [h]

/-- The CSV data-row loop renders each collected row, in order. -/
theorem writeRows_eq (rs : List Row) : writeRows rs = rs.map renderRow := by
  induction rs with
  | nil => rfl
  | cons r t ih => simp [writeRows, ih]

/-- Shape of the batch loop output: one row per call, numbered
consecutively from the starting index, with the questions in call
order. -/
theorem batchLoop_shape (calls : List (CallEnv × String)) :
    ∀ (i : Nat) (fs : FS) (acc : List Row),
      (batchLoop calls i fs acc).1.length = acc.length + calls.length ∧
      (batchLoop calls i fs acc).1.map Row.question_number =
        acc.map Row.question_number ++ List.range' i calls.length ∧
      (batchLoop calls i fs acc).1.map Row.question =
        acc.map Row.question ++ calls.map Prod.snd := by
  induction calls with
  | nil => intro i fs acc; simp [batchLoop]
  | cons c rest ih =>
    intro i fs acc
    obtain ⟨env, q⟩ := c
    rcases hga : get_answer env q fs with ⟨r, fs2, ms⟩
    cases r with
    | ok a =>
      obtain ⟨ih1, ih2, ih3⟩ := ih (i + 1) fs2 (acc ++ [⟨i, q, a, env.now⟩])
      refine ⟨?_, ?_, ?_⟩
      · simp only [batchLoop, hga, ih1]
        simp
        omega
      · simp only [batchLoop, hga, ih2]
        simp [List.range'_succ]
      · simp only [batchLoop, hga, ih3]
        simp
    | error e =>
      obtain ⟨ih1, ih2, ih3⟩ :=
        ih (i + 1) fs2 (acc ++ [⟨i, q, .jstr (batchErrMsg i e), env.now⟩])
      refine ⟨?_, ?_, ?_⟩
      · simp only [batchLoop, hga, ih1]
        simp
        omega
      · simp only [batchLoop, hga, ih2]
        simp [List.range'_succ]
      · simp only [batchLoop, hga, ih3]
        simp

/-!  Claim theorems  -/

/-- C5: every transport or API failure of `send_message` — network error,
non-2xx status, or malformed response body (all of which raise
`requests.exceptions.RequestException`) — is caught inside `send_message`
and converted to a returned dict carrying an `error` field with a
human-readable message; the exception is never re-raised to the
caller. -/
theorem send_message_error_c5 (m : String) (lw : LogEnv) (now : Nat)
    (q : String) (fs : FS) :
    send_message ⟨.requestException m, lw, now⟩ q fs =
      (.ok (.jobj [("error", .jstr ("API request failed: " ++ m))]), fs,
        [.apiRequestFailed ("API request failed: " ++ m)]) := rfl

/-- C9: when the existing log file is present but its content is not
valid JSON, the next `_log_interaction` call discards the previous
content and rewrites the file to hold only the single new entry, raising
nothing and printing nothing. -/
theorem log_corrupt_c9 (dw : DWrite) (now : Nat) (q : String) (resp : JVal)
    (dsk : LogFileState) :
    log_interaction ⟨.ok, dw⟩ now q resp ⟨.invalid, dsk⟩ =
      (.ok (), ⟨.content (.jarr [mkEntry now q resp]), dsk⟩, []) := rfl

/-- C7: when the primary log path is unwritable (`PermissionError`) but
the desktop fallback is writable, the appended log ends up persisted at
the fallback path and the confirmation line is printed; when both paths
are unwritable, neither file changes, a failure line is printed for each
of the two attempts, and no exception propagates. -/
theorem log_fallback_c7 (fs : FS) (hG : listLog fs) (now : Nat) (q : String)
    (resp : JVal) (m m2 : String) :
    (log_interaction ⟨.permissionError m, .ok⟩ now q resp fs =
      (.ok (), ⟨fs.primary, .content (.jarr (logsOf fs ++ [mkEntry now q resp]))⟩,
        [.permWarn m, .pathInfo, .desktopSaved])) ∧
    (log_interaction ⟨.permissionError m, .fail m2⟩ now q resp fs =
      (.ok (), fs, [.permWarn m, .pathInfo, .desktopFailed m2])) := by
  obtain h0 | ⟨xs, h0⟩ := hG <;>
    exact ⟨by simp [log_interaction, readLogs, logsOf, h0],
      by simp [log_interaction, readLogs, logsOf, h0]⟩

/-- C7 witness: both branches evaluated on the empty filesystem. -/
theorem log_fallback_c7_witness :
    listLog initFS ∧
    ((log_interaction ⟨.permissionError "p", .ok⟩ 0 "q" .null initFS =
      (.ok (), ⟨initFS.primary, .content (.jarr (logsOf initFS ++ [mkEntry 0 "q" .null]))⟩,
        [.permWarn "p", .pathInfo, .desktopSaved])) ∧
    (log_interaction ⟨.permissionError "p", .fail "d"⟩ 0 "q" .null initFS =
      (.ok (), initFS, [.permWarn "p", .pathInfo, .desktopFailed "d"]))) :=
  ⟨Or.inl rfl, log_fallback_c7 initFS (Or.inl rfl) 0 "q" .null "p" "d"⟩

/-- C10: the constructor strips every trailing slash from the configured
base URL (argument or environment value), so the stored base never ends
in a slash and `send_message` posts to the base followed by exactly one
`/chat-messages` segment; in particular `http://localhost/v1` and
`http://localhost/v1/` yield the identical endpoint URL. -/
theorem base_url_c10 (arg envVar : Option String) :
    (initBaseUrl arg envVar).data.getLast? ≠ some '/' ∧
    sendEndpoint (initBaseUrl arg envVar) = initBaseUrl arg envVar ++ "/chat-messages" ∧
    sendEndpoint (initBaseUrl (some "http://localhost/v1") none) =
      sendEndpoint (initBaseUrl (some "http://localhost/v1/") none) := by
  refine ⟨?_, rfl, rfl⟩
  intro h
  have hd : ((((if truthy arg then arg.getD "" else
      getenvD envVar "http://localhost/v1")).data.reverse.dropWhile
        (fun c => c == '/')).reverse).getLast? = some '/' := h
  rw [List.getLast?_reverse] at hd
  have := dropWhile_head_false hd
  simp at this

/-- C6: a readable question file loads to its lines in original order
with surrounding whitespace stripped and blank lines discarded; an
unreadable file loads to the empty list; in particular the file with
lines `What is 2+2?`, (blank), `Hello` loads to exactly those two
questions. -/
theorem load_questions_c6 (ls : List String) :
    load_questions_from_file (some ls) =
      (ls.map pyStrip).filter (fun q => !(q == "")) ∧
    load_questions_from_file none = [] ∧
    load_questions_from_file (some ["What is 2+2?", "", "Hello"]) =
      ["What is 2+2?", "Hello"] :=
  ⟨by simpa using loadLoop_eq ls [], rfl, by rfl⟩

/-- C8: when the primary write succeeds, `save_answers_only` writes to the
file named by the `YYYYMMDDHHMMSS` creation timestamp followed by
`_dify_answers_only.csv`, whose first record is the header
`question_number, timestamp, question, answer` followed by one data
record per collected row, in input order. -/
theorem save_answers_c8 (t : DateTime) (env : CsvEnv) (rows : List Row)
    (h : env.primaryWrite = WriteOutcome.ok) :
    (save_answers_only t env rows).1 = strftime14 t ++ "_dify_answers_only.csv" ∧
    (save_answers_only t env rows).2 =
      some (.primary, ["question_number", "timestamp", "question", "answer"]
        :: rows.map renderRow) ∧
    (["question_number", "timestamp", "question", "answer"]
        :: rows.map renderRow).length = rows.length + 1 := by
  obtain ⟨pw, dw⟩ := env
  cases pw with
  | ok => exact ⟨rfl, by simp [save_answers_only, csvContent, writeRows_eq], by simp⟩
  | permissionError m => exact absurd h (by simp)
  | otherError m => exact absurd h (by simp)

/-- C8 witness: one concrete row saved at a concrete time. -/
theorem save_answers_c8_witness :
    (CsvEnv.mk WriteOutcome.ok DWrite.ok).primaryWrite = WriteOutcome.ok ∧
    ((save_answers_only ⟨2026, 10, 12, 3, 4, 5⟩ ⟨WriteOutcome.ok, DWrite.ok⟩
        [⟨1, "q", .jstr "a", 0⟩]).1 = strftime14 ⟨2026, 10, 12, 3, 4, 5⟩ ++ "_dify_answers_only.csv" ∧
      (save_answers_only ⟨2026, 10, 12, 3, 4, 5⟩ ⟨WriteOutcome.ok, DWrite.ok⟩
        [⟨1, "q", .jstr "a", 0⟩]).2 =
        some (.primary, ["question_number", "timestamp", "question", "answer"]
          :: ([⟨1, "q", .jstr "a", 0⟩] : List Row).map renderRow) ∧
      (["question_number", "timestamp", "question", "answer"]
          :: ([⟨1, "q", .jstr "a", 0⟩] : List Row).map renderRow).length =
        ([⟨1, "q", .jstr "a", 0⟩] : List Row).length + 1) :=
  ⟨rfl, save_answers_c8 ⟨2026, 10, 12, 3, 4, 5⟩ ⟨WriteOutcome.ok, DWrite.ok⟩
    [⟨1, "q", .jstr "a", 0⟩] rfl⟩

/-- C1 counterexample: for the response `{"data": 5}` returned by
`send_message`, the claim requires the fixed fallback string, but
`get_answer` raises a `TypeError` instead (Python evaluates
`"answer" in result["data"]` on the integer). -/
theorem get_answer_c1_counterexample :
    (get_answer envDataFive "q" initFS).1 =
      .error (.typeError "argument of type \x27int\x27 is not iterable") ∧
    (get_answer envDataFive "q" initFS).1 ≠ .ok (.jstr "No answer found in response") :=
  ⟨rfl, error_ne_ok _ _⟩

/-- C1 (amended): for every response value produced by `send_message`
that is a JSON object whose `data` field — consulted only when there is
neither a top-level `error` nor a top-level `answer` field — is itself a
JSON object if present, `get_answer` selects its result in strict
priority order: an `error` field yields the `Error: `-prefixed string,
then a top-level `answer` field yields that value, then a nested
`data.answer` field yields that nested value, and otherwise the fixed
string `No answer found in response` is returned; in particular
`{"answer": "4"}` yields `4`, `{"data": {"answer": "hi"}}` yields `hi`,
and `{}` yields the fallback string. -/
theorem get_answer_priority_c1 (env : CallEnv) (q : String) (fs : FS)
    (hG : listLog fs) (hS : safeBody env.http = true) :
    (∃ fs2 msgs,
      get_answer env q fs = (.ok (claimedAnswer (sendResultOf env.http)), fs2, msgs)) ∧
    (get_answer envAnswer4 "q" initFS).1 = .ok (.jstr "4") ∧
    (get_answer envDataHi "q" initFS).1 = .ok (.jstr "hi") ∧
    (get_answer envEmptyObj "q" initFS).1 = .ok (.jstr "No answer found in response") :=
  ⟨get_answer_ok env q fs hG hS, rfl, rfl, rfl⟩

/-- C1 witness: the amended theorem applied to the `{"answer": "4"}`
example on the fresh filesystem. -/
theorem get_answer_priority_c1_witness :
    listLog initFS ∧ safeBody envAnswer4.http = true ∧
    ((∃ fs2 msgs, get_answer envAnswer4 "q" initFS =
        (.ok (claimedAnswer (sendResultOf envAnswer4.http)), fs2, msgs)) ∧
      (get_answer envAnswer4 "q" initFS).1 = .ok (.jstr "4") ∧
      (get_answer envDataHi "q" initFS).1 = .ok (.jstr "hi") ∧
      (get_answer envEmptyObj "q" initFS).1 = .ok (.jstr "No answer found in response")) :=
  ⟨Or.inl rfl, rfl, get_answer_priority_c1 envAnswer4 "q" initFS (Or.inl rfl) rfl⟩

/-- C3 counterexample: the response `{"answer": ""}` makes `get_answer`
return the empty string (not a non-empty one), and the response
`{"data": 5}` makes it raise a `TypeError` (so it does not return for
every response shape). -/
theorem get_answer_c3_counterexample :
    (get_answer envEmptyAnswer "q" initFS).1 = .ok (.jstr "") ∧
    String.length "" = 0 ∧
    (get_answer envDataFive "hello" initFS).1 =
      .error (.typeError "argument of type \x27int\x27 is not iterable") :=
  ⟨rfl, rfl, rfl⟩

/-- C3 (amended): for every non-empty input string, whenever the log file
reads as a list and the HTTP outcome is either a failure or a success
whose body is a JSON object (with an object `data` field when that field
is consulted), `get_answer` returns without raising, and its result is
one of the shapes the specification enumerates: an `Error: `-prefixed
string, the fixed fallback string, or the response's top-level or nested
answer value — which may itself be empty or a non-string when the
response's answer value is. -/
theorem get_answer_total_c3 (env : CallEnv) (q : String) (fs : FS)
    (_h0 : q ≠ "") (hG : listLog fs) (hS : safeBody env.http = true) :
    ∃ v fs2 msgs, get_answer env q fs = (.ok v, fs2, msgs) ∧
      answerLike (sendResultOf env.http) v := by
  obtain ⟨fs2, msgs, hq⟩ := get_answer_ok env q fs hG hS
  exact ⟨_, fs2, msgs, hq, claimedAnswer_like _⟩

/-- C3 witness: the amended theorem applied to a failing HTTP call with a
non-empty question. -/
theorem get_answer_total_c3_witness :
    ("hi" : String) ≠ "" ∧ listLog initFS ∧ safeBody envBoom.http = true ∧
    (∃ v fs2 msgs, get_answer envBoom "hi" initFS = (.ok v, fs2, msgs) ∧
      answerLike (sendResultOf envBoom.http) v) :=
  ⟨by decide, Or.inl rfl, rfl,
    get_answer_total_c3 envBoom "hi" initFS (by decide) (Or.inl rfl) rfl⟩

/-- C2 counterexample: one `send_message` call whose HTTP request fails
leaves the log untouched — after this single call the log holds zero
entries, not the one entry the claim requires. -/
theorem send_message_c2_counterexample :
    sendMany [(envBoom, "q")] initFS = .ok initFS ∧
    (logsOf initFS).length = 0 :=
  ⟨rfl, rfl⟩

/-- C2 (amended): each successful `send_message` call appends exactly one
exchange record to the log, and a failed call appends none (the logging
step sits inside the `try` block and is skipped on a request exception);
hence, starting from no log and with every primary log write succeeding,
after a sequence of calls the log holds exactly one entry per successful
call, in call order, and — when the clock is nondecreasing across the
calls — with nondecreasing timestamps. -/
theorem send_message_logging_c2 (calls : List (CallEnv × String))
    (hW : ∀ c ∈ calls, c.1.logw.primaryWrite = WriteOutcome.ok)
    (hT : (calls.map (fun c => c.1.now)).Pairwise (· ≤ ·)) :
    ∃ fs2, sendMany calls initFS = .ok fs2 ∧
      logsOf fs2 = entriesOf calls ∧
      (logsOf fs2).length = (calls.filter (fun c => isSuccess c.1.http)).length ∧
      ((logsOf fs2).map tsOfEntry).Pairwise (· ≤ ·) := by
  obtain ⟨fs2, h1, h2, _⟩ := sendMany_logs calls initFS hW (Or.inl rfl)
  have h2' : logsOf fs2 = entriesOf calls := by simpa [logsOf, initFS] using h2
  refine ⟨fs2, h1, h2', ?_, ?_⟩
  · rw [h2']
    simp [entriesOf]
  · rw [h2']
    have hmap : (entriesOf calls).map tsOfEntry =
        (calls.filter (fun c => isSuccess c.1.http)).map (fun c => c.1.now) := by
      simp only [entriesOf, List.map_map]
      exact List.map_congr_left (fun c _ => tsOf_entryOfCall c)
    rw [hmap]
    exact hT.sublist (List.Sublist.map _ (List.filter_sublist _))

/-- C2 witness: the amended theorem applied to a success followed by a
failure (log writes all succeed, clock nondecreasing). -/
theorem send_message_logging_c2_witness :
    (∀ c ∈ callsW, c.1.logw.primaryWrite = WriteOutcome.ok) ∧
    ((callsW.map (fun c => c.1.now)).Pairwise (· ≤ ·)) ∧
    (∃ fs2, sendMany callsW initFS = .ok fs2 ∧
      logsOf fs2 = entriesOf callsW ∧
      (logsOf fs2).length = (callsW.filter (fun c => isSuccess c.1.http)).length ∧
      ((logsOf fs2).map tsOfEntry).Pairwise (· ≤ ·)) := by
  have hW : ∀ c ∈ callsW, c.1.logw.primaryWrite = WriteOutcome.ok := by
    intro c hc
    simp only [callsW, List.mem_cons, List.not_mem_nil, or_false] at hc
    rcases hc with rfl | rfl <;> rfl
  have hT : (callsW.map (fun c => c.1.now)).Pairwise (· ≤ ·) := by
    simp [callsW, List.pairwise_cons, envAnswer4, envBoom]
  exact ⟨hW, hT, send_message_logging_c2 callsW hW hT⟩

/-- C4: one batch run over the questions loaded from a file produces
exactly one result row per question, numbered 1..K with no gaps in the
original file order, with the questions in that same order; and when a
per-question `get_answer` call raises any exception, the loop does not
abort or skip that question but appends a row whose answer is the error
string carrying that question's sequence number, then continues with the
remaining questions. -/
theorem batch_rows_c4 (ls : List String) (envs : List CallEnv) (fs0 : FS)
    (h : envs.length = (load_questions_from_file (some ls)).length) :
    ((runBatch (envs.zip (load_questions_from_file (some ls))) fs0).1.length =
      (load_questions_from_file (some ls)).length) ∧
    ((runBatch (envs.zip (load_questions_from_file (some ls))) fs0).1.map
        Row.question_number =
      List.range' 1 (load_questions_from_file (some ls)).length) ∧
    ((runBatch (envs.zip (load_questions_from_file (some ls))) fs0).1.map
        Row.question = load_questions_from_file (some ls)) ∧
    (∀ (env : CallEnv) (q : String) (rest : List (CallEnv × String)) (i : Nat)
        (fs fs2 : FS) (acc : List Row) (e : PyExc) (ms : List Msg),
      get_answer env q fs = (.error e, fs2, ms) →
      batchLoop ((env, q) :: rest) i fs acc =
        batchLoop rest (i + 1) fs2 (acc ++ [⟨i, q, .jstr (batchErrMsg i e), env.now⟩]) ∧
      strContains (batchErrMsg i e) (toString i) = true) := by
  have hzlen : (envs.zip (load_questions_from_file (some ls))).length =
      (load_questions_from_file (some ls)).length := by
    rw [List.length_zip, h, Nat.min_self]
  obtain ⟨s1, s2, s3⟩ :=
    batchLoop_shape (envs.zip (load_questions_from_file (some ls))) 1 fs0 []
  refine ⟨?_, ?_, ?_, ?_⟩
  · rw [runBatch, s1, hzlen]
    simp
  · rw [runBatch, s2, hzlen]
    simp
  · rw [runBatch, s3]
    simp only [List.map_nil, List.nil_append]
    exact List.map_snd_zip _ _ h.ge
  · intro env q rest i fs fs2 acc e ms hget
    constructor
    · simp only [batchLoop, hget]
    · rw [show batchErrMsg i e =
          "質問" ++ toString i ++ ("でエラー: " ++ excMsg e) from by
        simp [batchErrMsg, String.append_assoc]]
      exact strContains_mid _ _ _

/-- C4 witness: two questions loaded from the example file, one call
succeeding and one failing at the HTTP level. -/
theorem batch_rows_c4_witness :
    ([envAnswer4, envBoom] : List CallEnv).length =
      (load_questions_from_file (some ["What is 2+2?", "", "Hello"])).length ∧
    (((runBatch (([envAnswer4, envBoom] : List CallEnv).zip
          (load_questions_from_file (some ["What is 2+2?", "", "Hello"]))) initFS).1.length =
        (load_questions_from_file (some ["What is 2+2?", "", "Hello"])).length) ∧
      ((runBatch (([envAnswer4, envBoom] : List CallEnv).zip
          (load_questions_from_file (some ["What is 2+2?", "", "Hello"]))) initFS).1.map
          Row.question_number =
        List.range' 1 (load_questions_from_file (some ["What is 2+2?", "", "Hello"])).length) ∧
      ((runBatch (([envAnswer4, envBoom] : List CallEnv).zip
          (load_questions_from_file (some ["What is 2+2?", "", "Hello"]))) initFS).1.map
          Row.question = load_questions_from_file (some ["What is 2+2?", "", "Hello"])) ∧
      (∀ (env : CallEnv) (q : String) (rest : List (CallEnv × String)) (i : Nat)
          (fs fs2 : FS) (acc : List Row) (e : PyExc) (ms : List Msg),
        get_answer env q fs = (.error e, fs2, ms) →
        batchLoop ((env, q) :: rest) i fs acc =
          batchLoop rest (i + 1) fs2 (acc ++ [⟨i, q, .jstr (batchErrMsg i e), env.now⟩]) ∧
        strContains (batchErrMsg i e) (toString i) = true)) :=
  ⟨rfl, batch_rows_c4 ["What is 2+2?", "", "Hello"] [envAnswer4, envBoom] initFS rfl⟩
